import Mathlib

/-!
Shallow embedding of the stream-session core of the CameraYoloApp repository
(`app/video.py`): the `VideoStream` session (capture handle, processing
configuration, single-slot latest frame with a new-frame event, background
acquisition thread) and the `VideoManager` registry (per-user session map and
user-to-camera binding), together with the lazy frame generator returned by
`VideoManager.get_frames`.

Modelling conventions:
- Raw frames delivered by `cv2.VideoCapture.read` are abstracted as natural
  numbers; a processed frame records whether the YOLO annotation step ran and
  with which model name and confidence threshold (`results[0].plot()` output
  versus the raw frame).  JPEG encoding and the multipart envelope are
  byte-level transport and are abstracted away.
- Floating-point thresholds are modelled as rationals; no claim depends on
  float rounding.
- The background thread (`VideoStream.update`) is modelled by `threadStep`,
  one full acquisition cycle per step: the `while self.running` check, the
  capture read (whose outcome is an input: `some raw` on success, `none` on
  failure), the config read, the optional annotation, and the publish.  The
  stop signal is observed at the cycle boundary, matching the loop's check at
  the top of each iteration.
- Python dictionaries are association lists with first-match lookup and
  replace-or-append insertion; session objects live in an allocation-ordered
  heap (`List VideoStream`) so that object identity (which cell a generator
  or a registry entry refers to) is explicit.
-/

namespace CameraYolo

/-- A frame as published into the single slot `self.frame`: either the raw
decoded frame (no model configured) or the annotated frame produced by
`model(frame, conf=threshold, verbose=False)` followed by `results[0].plot()`. -/
inductive ProcFrame
  | raw (f : Nat)
  | annotated (model : String) (conf : ℚ) (f : Nat)
deriving DecidableEq

/-- The source a `cv2.VideoCapture` was opened on: device 0 when the url is
the string "0", else the url itself (`VideoStream.__init__`, lines 36–39). -/
inductive CapSource
  | device0
  | uri (u : String)
deriving DecidableEq

/-- A capture handle: its source and whether `release()` has been called. -/
structure Cap where
  source : CapSource
  released : Bool
deriving DecidableEq

/-- `cv2.VideoCapture(0) if url == "0" else cv2.VideoCapture(url)`. -/
def openCapture (url : String) : Cap :=
  { source := if url = "0" then .device0 else .uri url, released := false }

/-- Whether the session's background thread is still alive (inside its
`while` loop) or has returned. -/
inductive ThreadPhase
  | active
  | done
deriving DecidableEq

/-- State of one `VideoStream` object (`app/video.py`, class `VideoStream`). -/
structure VideoStream where
  url : String
  model_name : Option String
  threshold : ℚ
  cap : Cap
  running : Bool
  frame : Option ProcFrame
  new_frame_event : Bool
  thread : ThreadPhase
deriving DecidableEq

/-- `VideoStream.__init__`: maps the literal string "None" to no model,
opens the capture, sets `running = True`, empty frame slot, cleared event,
and launches the background thread (lines 29–50). -/
def VideoStream.init (url : String) (model_name : Option String) (threshold : ℚ) : VideoStream :=
  { url := url
    model_name := if model_name = some "None" then none else model_name
    threshold := threshold
    cap := openCapture url
    running := true
    frame := none
    new_frame_event := false
    thread := .active }

/-- One acquisition cycle of `VideoStream.update` (lines 52–82).  The `read`
input is the outcome of `cap.read()`: `none` models a failed read (the loop
executes `continue`), `some raw` a decoded frame.  On success the current
config is read under `model_lock`; with a model configured the frame is
annotated, otherwise passed through raw; the result is stored in the frame
slot and the new-frame event is set.  When `running` is `False` the loop
condition fails and the thread returns. -/
def threadStep (s : VideoStream) (read : Option Nat) : VideoStream :=
  match s.thread with
  | .done => s
  | .active =>
    if s.running then
      match read with
      | none => s
      | some raw =>
        let f : ProcFrame :=
          match s.model_name with
          | none => .raw raw
          | some m => .annotated m s.threshold raw
        { s with frame := some f, new_frame_event := true }
    else { s with thread := .done }

/-- Python truthiness of the `model_name` argument in the guard
`if model_name:` of `VideoStream.update_params`: `None` and the empty string
are falsy, every other string is truthy. -/
def pyTruthy : Option String → Bool
  | none => false
  | some s => !(decide (s = ""))

/-- `VideoStream.update_params` (lines 84–99): under `model_lock`, if
`model_name` is truthy it is applied (the string "None" clears the model),
and if `threshold is not None` it is applied. -/
def VideoStream.update_params (s : VideoStream) (model_name : Option String)
    (threshold : Option ℚ) : VideoStream :=
  let s1 :=
    if pyTruthy model_name then
      if model_name = some "None" then { s with model_name := none }
      else { s with model_name := model_name }
    else s
  match threshold with
  | some t => { s1 with threshold := t }
  | none => s1

/-- `VideoStream.update_url` (lines 101–112): under `cap_lock`, releases the
old capture handle, opens a new one on the new url and records the url.  The
frame slot, event, config and thread are untouched. -/
def VideoStream.update_url (s : VideoStream) (new_url : String) : VideoStream :=
  { s with cap := openCapture new_url, url := new_url }

/-- `VideoStream.get_frame` (lines 114–124): blocks on `new_frame_event.wait()`
until the event is set, then copies the frame slot and clears the event.
`none` means the call cannot proceed now — it is parked inside `wait()`;
the only successful outcome carries a frame, the code has no terminal
signal.  (JPEG encoding of the copy is abstracted away.) -/
def VideoStream.get_frame (s : VideoStream) : Option (ProcFrame × VideoStream) :=
  if s.new_frame_event then
    s.frame.map (fun f => (f, { s with new_frame_event := false }))
  else none

/-- `VideoStream.stop` (lines 126–132): sets `running = False`, joins the
thread (the loop observes the flag at its next `while` check and returns —
modelled by one `threadStep`, which with `running = False` only performs the
exit transition), then releases the capture handle. -/
def VideoStream.stop (s : VideoStream) : VideoStream :=
  let s1 : VideoStream := { s with running := false }
  let s2 := threadStep s1 none
  { s2 with cap := { s2.cap with released := true } }

/-- The spec's derived lifecycle for a session (spec §3), read off the code's
`running` flag, thread liveness and handle state.  `Starting` is momentary in
the code (the thread is launched inside `__init__` with `running` already
`True`) and is subsumed by `Running`. -/
inductive Lifecycle
  | Starting
  | Running
  | Stopping
  | Stopped
deriving DecidableEq

/-- Derived lifecycle state of a session. -/
def lifecycleState (s : VideoStream) : Lifecycle :=
  if s.running then .Running
  else if s.thread = .active then .Stopping
  else if s.cap.released then .Stopped
  else .Stopping

/-- States of a `VideoStream` object reachable through its public operations
and its own background thread. -/
inductive Reach : VideoStream → Prop
  | init (url : String) (mn : Option String) (th : ℚ) :
      Reach (VideoStream.init url mn th)
  | cycle {s : VideoStream} (r : Option Nat) : Reach s → Reach (threadStep s r)
  | params {s : VideoStream} (mn : Option String) (th : Option ℚ) :
      Reach s → Reach (s.update_params mn th)
  | setUrl {s : VideoStream} (u : String) : Reach s → Reach (s.update_url u)
  | consume {s s' : VideoStream} {f : ProcFrame} :
      Reach s → s.get_frame = some (f, s') → Reach s'
  | halt {s : VideoStream} : Reach s → Reach s.stop

/-! ### Python dictionaries as association lists -/

/-- Dictionary lookup: first entry with the given key. -/
def lookup : List (Nat × Nat) → Nat → Option Nat
  | [], _ => none
  | p :: t, k => if p.1 = k then some p.2 else lookup t k

/-- Dictionary assignment `d[k] = v`: replace the entry in place, or append. -/
def insertD : List (Nat × Nat) → Nat → Nat → List (Nat × Nat)
  | [], k, v => [(k, v)]
  | p :: t, k, v => if p.1 = k then (k, v) :: t else p :: insertD t k v

/-- Dictionary deletion `del d[k]`. -/
def removeD : List (Nat × Nat) → Nat → List (Nat × Nat)
  | [], _ => []
  | p :: t, k => if p.1 = k then removeD t k else p :: removeD t k

/-- The session heap: allocated `VideoStream` objects in allocation order,
addressed by index, so that object identity is explicit. -/
def cell : List VideoStream → Nat → Option VideoStream
  | [], _ => none
  | s :: _, 0 => some s
  | _ :: t, n + 1 => cell t n

/-- In-place mutation of the session object at index `i`. -/
def modHeap : List VideoStream → Nat → (VideoStream → VideoStream) → List VideoStream
  | [], _, _ => []
  | s :: t, 0, f => f s :: t
  | s :: t, n + 1, f => s :: modHeap t n f

/-- Python runtime errors that the registry code can raise. -/
inductive PyErr
  | keyError
deriving DecidableEq

/-! ### The registry: `VideoManager` plus the heap of live session objects -/

/-- State of the `VideoManager` (`app/video.py`, lines 135–196) together with
the heap of session objects it has created.  `streams` and `user_to_camera`
map a user id to a heap index resp. a camera id. -/
structure Sys where
  heap : List VideoStream
  streams : List (Nat × Nat)
  user_to_camera : List (Nat × Nat)
deriving DecidableEq

/-- `VideoManager.__init__`: both dictionaries empty. -/
def Sys.empty : Sys := ⟨[], [], []⟩

/-- First statement of `VideoManager.start_stream` (lines 155–156):
`if user_id in self.streams: self.streams[user_id].stop()`.  The old
session's `stop` runs to completion (it joins the thread) here. -/
def Sys.stopPhase (σ : Sys) (user_id : Nat) : Sys :=
  match lookup σ.streams user_id with
  | some sid => { σ with heap := modHeap σ.heap sid VideoStream.stop }
  | none => σ

/-- Second statement of `start_stream` (line 157):
`self.user_to_camera[user_id] = camera_id`. -/
def Sys.bindPhase (σ : Sys) (user_id camera_id : Nat) : Sys :=
  { σ with user_to_camera := insertD σ.user_to_camera user_id camera_id }

/-- Third statement of `start_stream` (line 158):
`self.streams[user_id] = VideoStream(url, model_name, threshold)` —
allocates a fresh session object (which launches its own thread) and stores
it for the user. -/
def Sys.createPhase (σ : Sys) (user_id : Nat) (url : String) (mn : Option String)
    (th : ℚ) : Sys :=
  { σ with heap := σ.heap ++ [VideoStream.init url mn th]
           streams := insertD σ.streams user_id σ.heap.length }

/-- `VideoManager.start_stream` (lines 144–158). -/
def Sys.start_stream (σ : Sys) (user_id camera_id : Nat) (url : String)
    (mn : Option String) (th : ℚ) : Sys :=
  ((σ.stopPhase user_id).bindPhase user_id camera_id).createPhase user_id url mn th

/-- The instants of `start_stream`: before it, after the old session is
stopped (join completed), after the camera binding, and after the new
session object is created and stored. -/
def Sys.start_stream_states (σ : Sys) (user_id camera_id : Nat) (url : String)
    (mn : Option String) (th : ℚ) : List Sys :=
  [σ,
   σ.stopPhase user_id,
   (σ.stopPhase user_id).bindPhase user_id camera_id,
   σ.start_stream user_id camera_id url mn th]

/-- `VideoManager.update_url` (lines 172–177):
`if user_id in self.streams and self.user_to_camera[user_id] == camera_id:`.
The second conjunct is only evaluated when the first holds (Python
short-circuit); if `user_id` were in `streams` but not in `user_to_camera`,
the subscript would raise `KeyError`. -/
def Sys.update_url (σ : Sys) (user_id camera_id : Nat) (new_url : String) :
    Except PyErr Sys :=
  match lookup σ.streams user_id with
  | none => .ok σ
  | some sid =>
    match lookup σ.user_to_camera user_id with
    | none => .error .keyError
    | some cid =>
      if cid = camera_id then
        .ok { σ with heap := modHeap σ.heap sid (fun s => s.update_url new_url) }
      else .ok σ

/-- `VideoManager.stop_stream` (lines 190–196): if the user has a session,
stop it and delete it from `streams`; `user_to_camera` is not touched. -/
def Sys.stop_stream (σ : Sys) (user_id : Nat) : Sys :=
  match lookup σ.streams user_id with
  | none => σ
  | some sid =>
    { σ with heap := modHeap σ.heap sid VideoStream.stop
             streams := removeD σ.streams user_id }

/-- One acquisition cycle of the background thread of the session at heap
index `sid`, driven at registry level. -/
def Sys.sessionCycle (σ : Sys) (sid : Nat) (read : Option Nat) : Sys :=
  { σ with heap := modHeap σ.heap sid (fun s => threadStep s read) }

/-- Registry well-formedness: every session entry points into the heap and
has a camera binding (every `start_stream` establishes both). -/
abbrev SysWF (σ : Sys) : Prop :=
  ∀ p ∈ σ.streams, p.2 < σ.heap.length ∧ (lookup σ.user_to_camera p.1).isSome = true

/-! ### The `get_frames` generator -/

/-- Outcome of one `next()` on the frame generator.  `stopIter` is the
generator terminating (`return None` inside a generator body simply ends
it); `blocked` means the call is parked inside `new_frame_event.wait()` of
the bound session and has not returned; `frame` is one yielded payload
(the multipart envelope around the JPEG bytes is abstracted away). -/
inductive NextRes
  | stopIter
  | blocked
  | frame (f : ProcFrame)
deriving DecidableEq

/-- The generator object returned by `VideoManager.get_frames` (lines
179–188).  Because the function body contains `yield`, calling it executes
nothing; the body runs at the first `next()`.  `bound` is the local variable
`stream` once the body has run the lookup. -/
structure FrameGen where
  user_id : Nat
  bound : Option Nat
  closed : Bool
deriving DecidableEq

/-- `VideoManager.get_frames(user_id)`: constructs the generator object.
No code of the body runs here — in particular the `user_id not in
self.streams` check does not. -/
def Sys.get_frames (σ : Sys) (user_id : Nat) : FrameGen :=
  { user_id := user_id, bound := none, closed := false }

/-- The loop body `frame = stream.get_frame(); yield ...` against the bound
session cell. -/
def readStep (g : FrameGen) (sid : Nat) (σ : Sys) : NextRes × FrameGen × Sys :=
  match cell σ.heap sid with
  | none => (.blocked, g, σ)
  | some s =>
    match s.get_frame with
    | none => (.blocked, g, σ)
    | some (f, s') => (.frame f, g, { σ with heap := modHeap σ.heap sid (fun _ => s') })

/-- One `next()` on the generator, against the current registry state `σ`.
On the first `next()` the body runs from the top: the membership check
against the *current* `streams`, then `stream = self.streams[user_id]`
binds the session object, then the read loop. -/
def FrameGen.next (g : FrameGen) (σ : Sys) : NextRes × FrameGen × Sys :=
  if g.closed then (.stopIter, g, σ)
  else
    match g.bound with
    | none =>
      match lookup σ.streams g.user_id with
      | none => (.stopIter, { g with closed := true }, σ)
      | some sid => readStep { g with bound := some sid } sid σ
    | some sid => readStep g sid σ

/-! ### Lock usage of the acquisition loop and of `update_params` -/

/-- Events of one iteration of `VideoStream.update` and of one call to
`VideoStream.update_params`, at the granularity of lock operations, the two
potentially slow external calls (`cap.read()` and YOLO inference) and the
state writes. -/
inductive LoopEv
  | capAcq
  | capRel
  | readFrame
  | modelAcq
  | modelRel
  | infer
  | frameAcq
  | publish
  | frameRel
  | setModel
  | setThresh
deriving DecidableEq, BEq

/-- The two blocking, variable-latency external calls. -/
def slowEv : LoopEv → Bool
  | .readFrame => true
  | .infer => true
  | _ => false

/-- Event trace of one iteration of `VideoStream.update` (lines 56–82):
read the handle under `cap_lock`, release, `cap.read()` outside any lock;
on failure `continue`; on success read the config under `model_lock`,
release, optionally run inference, then store and signal under `lock`. -/
def cycleTrace (success hasModel : Bool) : List LoopEv :=
  [.capAcq, .capRel, .readFrame] ++
    (if success then
      [.modelAcq, .modelRel] ++ (if hasModel then [.infer] else []) ++
        [.frameAcq, .publish, .frameRel]
    else [])

/-- Event trace of `VideoStream.update_params` (lines 84–99): a single
`model_lock` critical section containing only the conditional field writes. -/
def update_params_trace (mn : Option String) (th : Option ℚ) : List LoopEv :=
  [.modelAcq] ++ (if pyTruthy mn then [.setModel] else []) ++
    (if th.isSome then [.setThresh] else []) ++ [.modelRel]

/-- Scans a trace and checks that no slow external call is executed while
`model_lock` is held (`held` is the lock state entering the trace). -/
def noSlowUnderModelLock : List LoopEv → Bool → Bool
  | [], _ => true
  | e :: es, held =>
    ((!slowEv e) || (!held)) &&
      noSlowUnderModelLock es
        (if e = .modelAcq then true else if e = .modelRel then false else held)

/-- The trace never touches `cap_lock`, the frame lock, the capture device
or the inference engine. -/
def touchesOnlyModelLock (l : List LoopEv) : Bool :=
  l.all fun e =>
    !(e == .capAcq) && !(e == .capRel) && !(e == .frameAcq) && !(e == .frameRel) &&
      !(e == .readFrame) && !(e == .infer)

/-- After the opening `modelAcq`: no further lock operation until the final
`modelRel`, which closes the trace. -/
def interiorOk : List LoopEv → Bool
  | [] => false
  | [e] => e == .modelRel
  | e :: es => !(e == .modelAcq) && !(e == .modelRel) && interiorOk es

/-- The trace is exactly one `model_lock` critical section: all its writes
happen inside a single acquire/release pair. -/
def oneCriticalSection : List LoopEv → Bool
  | .modelAcq :: es => interiorOk es
  | _ => false

/-! ### Reference renderings of claim wordings (for comparison with the code) -/

/-- Rendering of claim C6's wording for `setProcessingConfig`: every
*provided* field is applied, fields not provided are left unchanged (the
"None" sentinel clears the algorithm, spec §6). -/
def update_params_claim (s : VideoStream) (mn : Option String) (th : Option ℚ) :
    VideoStream :=
  let s1 :=
    match mn with
    | some m =>
      if m = "None" then { s with model_name := none }
      else { s with model_name := some m }
    | none => s
  match th with
  | some t => { s1 with threshold := t }
  | none => s1

/-- The amended wording of C6: a provided *non-empty* algorithm string is
applied ("None" clears the model); a provided empty string is treated like
an absent argument (Python truthiness of `if model_name:`); a provided
threshold is applied; everything else is unchanged. -/
def update_params_amended (s : VideoStream) (mn : Option String) (th : Option ℚ) :
    VideoStream :=
  let s1 :=
    match mn with
    | some m =>
      if m = "" then s
      else if m = "None" then { s with model_name := none }
      else { s with model_name := some m }
    | none => s
  match th with
  | some t => { s1 with threshold := t }
  | none => s1

/-! ### Concrete executions used by the counterexamples and witnesses -/

/-- `n` consecutive acquisition cycles all of whose reads fail. -/
def failCycles : Nat → VideoStream → VideoStream
  | 0, s => s
  | n + 1, s => failCycles n (threadStep s none)

/-- A freshly started session whose first read succeeded: frame 5 published. -/
def cexPub : VideoStream := threadStep (VideoStream.init "0" none 0) (some 5)

/-- The same session after the consumer's `get_frame` returned frame 5 and
cleared the new-frame event. -/
def cexCons : VideoStream := { cexPub with new_frame_event := false }

/-- Registry demo: user 1 starts a stream on camera 10 (heap cell 0). -/
def demoSys : Sys := Sys.empty.start_stream 1 10 "rtsp://a" none (1/2)

/-- The demo session publishes its first frame. -/
def demoPub : Sys := demoSys.sessionCycle 0 (some 5)

/-- The first `next()` of user 1's frame generator, run against `demoPub`:
it binds heap cell 0 and yields frame 5. -/
def demoFirst : NextRes × FrameGen × Sys := (demoSys.get_frames 1).next demoPub

/-- Afterwards user 1 starts a new stream on camera 11 (heap cell 1; the old
cell-0 session is stopped first), and the new session publishes frame 99. -/
def demoRestart : Sys :=
  (demoFirst.2.2.start_stream 1 11 "rtsp://b" none (1/2)).sessionCycle 1 (some 99)

/-! ### Helper lemmas about the dictionary and heap operations -/

theorem lookup_insertD_self (l : List (Nat × Nat)) (k v : Nat) :
    lookup (insertD l k v) k = some v := by
  induction l with
  | nil => simp [insertD, lookup]
  | cons p t ih =>
    by_cases h : p.1 = k
    · simp [insertD, h, lookup]
    · simp [insertD, h, lookup, ih]

theorem lookup_removeD_self (l : List (Nat × Nat)) (k : Nat) :
    lookup (removeD l k) k = none := by
  induction l with
  | nil => simp [removeD, lookup]
  | cons p t ih =>
    by_cases h : p.1 = k
    · simp [removeD, h, ih]
    · simp [removeD, h, lookup, ih]

theorem lookup_some_mem {l : List (Nat × Nat)} {k v : Nat}
    (h : lookup l k = some v) : (k, v) ∈ l := by
  induction l with
  | nil => simp [lookup] at h
  | cons p t ih =>
    rcases p with ⟨a, b⟩
    by_cases hp : a = k
    · simp [lookup, hp] at h
      subst hp; subst h
      exact List.mem_cons_self _ _
    · simp [lookup, hp] at h
      exact List.mem_cons_of_mem _ (ih h)

theorem modHeap_length (h : List VideoStream) (i : Nat)
    (f : VideoStream → VideoStream) : (modHeap h i f).length = h.length := by
  induction h generalizing i with
  | nil => simp [modHeap]
  | cons s t ih =>
    cases i with
    | zero => simp [modHeap]
    | succ n => simp [modHeap, ih]

theorem cell_modHeap_self (h : List VideoStream) (i : Nat)
    (f : VideoStream → VideoStream) : cell (modHeap h i f) i = (cell h i).map f := by
  induction h generalizing i with
  | nil => simp [modHeap, cell]
  | cons s t ih =>
    cases i with
    | zero => simp [modHeap, cell]
    | succ n => simpa [modHeap, cell] using ih n

theorem cell_modHeap_ne (h : List VideoStream) (i j : Nat)
    (f : VideoStream → VideoStream) (hij : j ≠ i) :
    cell (modHeap h i f) j = cell h j := by
  induction h generalizing i j with
  | nil => simp [modHeap]
  | cons s t ih =>
    cases i with
    | zero =>
      cases j with
      | zero => exact absurd rfl hij
      | succ m => simp [modHeap, cell]
    | succ n =>
      cases j with
      | zero => simp [modHeap, cell]
      | succ m =>
        simpa [modHeap, cell] using ih n m (fun hh => hij (by rw [hh]))

theorem cell_append_lt (h : List VideoStream) (x : VideoStream) (i : Nat)
    (hi : i < h.length) : cell (h ++ [x]) i = cell h i := by
  induction h generalizing i with
  | nil => exact absurd hi (Nat.not_lt_zero i)
  | cons s t ih =>
    cases i with
    | zero => simp [cell]
    | succ n => simpa [cell] using ih n (by simpa using hi)

theorem cell_append_len (h : List VideoStream) (x : VideoStream) :
    cell (h ++ [x]) h.length = some x := by
  induction h with
  | nil => simp [cell]
  | cons s t ih => simpa [cell] using ih

theorem cell_length_none (h : List VideoStream) : cell h h.length = none := by
  induction h with
  | nil => simp [cell]
  | cons s t ih => simpa [cell] using ih

/-! ### Helper lemmas about `VideoStream.stop` and reachable session states -/

theorem stop_fields (s : VideoStream) :
    s.stop.running = false ∧ s.stop.thread = .done ∧ s.stop.cap.released = true := by
  cases hth : s.thread <;> simp [VideoStream.stop, threadStep, hth]

theorem stop_idem (s : VideoStream) : s.stop.stop = s.stop := by
  cases s with
  | mk url mn th cap running frame ev thr =>
    cases cap with
    | mk src rel => cases thr <;> simp [VideoStream.stop, threadStep]

theorem update_params_outside_config (s : VideoStream) (mn : Option String)
    (th : Option ℚ) :
    (s.update_params mn th).thread = s.thread
  ∧ (s.update_params mn th).running = s.running
  ∧ (s.update_params mn th).cap = s.cap
  ∧ (s.update_params mn th).frame = s.frame
  ∧ (s.update_params mn th).new_frame_event = s.new_frame_event := by
  unfold VideoStream.update_params
  cases hp : pyTruthy mn <;> by_cases hn : mn = some "None" <;>
    cases th <;> simp [hp, hn]

theorem reach_props {s : VideoStream} (hs : Reach s) :
    (s.thread = .active ↔ s.running = true)
  ∧ (s.cap.released = true → s.thread = .done) := by
  induction hs with
  | init url mn th => constructor <;> simp [VideoStream.init, openCapture]
  | @cycle s r _ ih =>
    obtain ⟨ih1, ih2⟩ := ih
    cases hth : s.thread with
    | done =>
      have he : threadStep s r = s := by simp [threadStep, hth]
      rw [he]; exact ⟨ih1, ih2⟩
    | active =>
      have hr : s.running = true := ih1.mp hth
      cases r with
      | none =>
        have he : threadStep s none = s := by simp [threadStep, hth, hr]
        rw [he]; exact ⟨ih1, ih2⟩
      | some raw =>
        constructor
        · simp [threadStep, hth, hr]
        · intro hrel
          have h2 : s.cap.released = true := by
            simpa [threadStep, hth, hr] using hrel
          have hdone := ih2 h2
          rw [hth] at hdone
          exact absurd hdone (by simp)
  | @params s mn th _ ih =>
    obtain ⟨h1, h2, h3, _, _⟩ := update_params_outside_config s mn th
    rw [h1, h2, h3]
    exact ih
  | @setUrl s u _ ih =>
    obtain ⟨ih1, _⟩ := ih
    constructor
    · simpa [VideoStream.update_url] using ih1
    · intro hrel
      simp [VideoStream.update_url, openCapture] at hrel
  | @consume s s' f _ hg ih =>
    obtain ⟨ih1, ih2⟩ := ih
    unfold VideoStream.get_frame at hg
    split at hg
    · cases hf : s.frame with
      | none => rw [hf] at hg; simp at hg
      | some f0 =>
        rw [hf] at hg
        simp at hg
        obtain ⟨-, hs'⟩ := hg
        rw [← hs']
        exact ⟨ih1, ih2⟩
    · simp at hg
  | @halt s _ ih =>
    obtain ⟨h1, h2, h3⟩ := stop_fields s
    constructor
    · rw [h1, h2]
      constructor
      · intro ha; exact absurd ha (by simp)
      · intro hr; exact absurd hr (by simp)
    · intro _; exact h2

/-! ### Claim theorems -/

/-- C4: `VideoStream.stop` signals the background unit (`running = False`),
joins the thread, and only then releases the capture handle: after `stop()`
returns, the thread has exited and the handle is released; on reachable
session states a handle is never released while the thread is still alive
(the release happens only after the join); a second `stop()` reproduces the
same state, so it cannot crash; and the background unit is alive exactly
when the derived lifecycle state is `Starting` or `Running`. -/
theorem stop_joins_then_releases (s : VideoStream) (hs : Reach s) :
    (s.stop.running = false ∧ s.stop.thread = .done ∧ s.stop.cap.released = true)
  ∧ s.stop.stop = s.stop
  ∧ (s.cap.released = true → s.thread = .done)
  ∧ (s.thread = .active ↔
      (lifecycleState s = .Starting ∨ lifecycleState s = .Running)) := by
  obtain ⟨hiff, hrel⟩ := reach_props hs
  refine ⟨stop_fields s, stop_idem s, hrel, ?_⟩
  constructor
  · intro ha
    have hr := hiff.mp ha
    right
    simp [lifecycleState, hr]
  · intro hl
    rcases hl with hl | hl
    · exfalso
      unfold lifecycleState at hl
      split at hl
      · exact absurd hl (by simp)
      · split at hl
        · exact absurd hl (by simp)
        · split at hl <;> exact absurd hl (by simp)
    · unfold lifecycleState at hl
      split at hl
      · next hr => exact hiff.mpr (by simpa using hr)
      · split at hl
        · exact absurd hl (by simp)
        · split at hl <;> exact absurd hl (by simp)

/-- Witness for C4 at a freshly created session. -/
theorem stop_joins_then_releases_w :
    ((VideoStream.init "0" none 0).stop.running = false
      ∧ (VideoStream.init "0" none 0).stop.thread = .done
      ∧ (VideoStream.init "0" none 0).stop.cap.released = true)
  ∧ (VideoStream.init "0" none 0).stop.stop = (VideoStream.init "0" none 0).stop
  ∧ ((VideoStream.init "0" none 0).cap.released = true
      → (VideoStream.init "0" none 0).thread = .done)
  ∧ ((VideoStream.init "0" none 0).thread = .active ↔
      (lifecycleState (VideoStream.init "0" none 0) = .Starting
        ∨ lifecycleState (VideoStream.init "0" none 0) = .Running)) :=
  stop_joins_then_releases (VideoStream.init "0" none 0) (Reach.init "0" none 0)

/-- C3: the code has no terminal signal after `stop()`.  In a concrete run —
a session publishes frame 5, the consumer's `get_frame` returns it and
clears the event, then the session is stopped — the next `get_frame` cannot
return (`new_frame_event.wait()` never fires), and no thread cycle ever
changes the stopped state or sets the event again, so the call blocks
forever instead of ending the frame sequence.  Evidence for the code_bug
verdict: `stop` (lines 126–132) never sets the event, and the only
successful outcome of `get_frame` (lines 114–124) carries a frame. -/
theorem stopped_stream_blocks_forever :
    cexPub.get_frame = some (ProcFrame.raw 5, cexCons)
  ∧ cexCons.stop.get_frame = none
  ∧ cexCons.stop.new_frame_event = false
  ∧ (∀ r, threadStep cexCons.stop r = cexCons.stop)
  ∧ (∀ r, (threadStep cexCons.stop r).new_frame_event = false) :=
  ⟨by decide, by decide, by decide, fun _ => rfl, fun _ => rfl⟩

/-- C7: in a cycle whose `cap.read()` fails the loop executes `continue`:
the state — in particular the frame slot and the new-frame event — is
exactly unchanged, and this holds after any number `n` of consecutive
failures, with the loop still running (no retry counter, no backoff state,
no failure limit); a subsequent successful read still publishes. -/
theorem acquisition_failure_publishes_nothing (s : VideoStream)
    (hr : s.running = true) (ht : s.thread = .active) :
    threadStep s none = s
  ∧ (threadStep s none).frame = s.frame
  ∧ (threadStep s none).new_frame_event = s.new_frame_event
  ∧ (∀ n, failCycles n s = s)
  ∧ (∀ n, (failCycles n s).running = true ∧ (failCycles n s).thread = .active)
  ∧ (∀ n raw, (threadStep (failCycles n s) (some raw)).new_frame_event = true
      ∧ ((threadStep (failCycles n s) (some raw)).frame).isSome = true) := by
  have h1 : threadStep s none = s := by simp [threadStep, ht, hr]
  have h2 : ∀ n, failCycles n s = s := by
    intro n
    induction n with
    | zero => rfl
    | succ m ih => simpa [failCycles, h1] using ih
  refine ⟨h1, by rw [h1], by rw [h1], h2, ?_, ?_⟩
  · intro n; rw [h2 n]; exact ⟨hr, ht⟩
  · intro n raw
    rw [h2 n]
    constructor <;> cases hm : s.model_name <;> simp [threadStep, ht, hr, hm]

/-- Witness for C7 at a freshly created session and three failed cycles. -/
theorem acquisition_failure_publishes_nothing_w :
    threadStep (VideoStream.init "0" none 0) none = VideoStream.init "0" none 0
  ∧ (threadStep (VideoStream.init "0" none 0) none).frame
      = (VideoStream.init "0" none 0).frame
  ∧ (threadStep (VideoStream.init "0" none 0) none).new_frame_event
      = (VideoStream.init "0" none 0).new_frame_event
  ∧ (∀ n, failCycles n (VideoStream.init "0" none 0) = VideoStream.init "0" none 0)
  ∧ (∀ n, (failCycles n (VideoStream.init "0" none 0)).running = true
      ∧ (failCycles n (VideoStream.init "0" none 0)).thread = .active)
  ∧ (∀ n raw,
      (threadStep (failCycles n (VideoStream.init "0" none 0)) (some raw)).new_frame_event
        = true
      ∧ ((threadStep (failCycles n (VideoStream.init "0" none 0)) (some raw)).frame).isSome
        = true) :=
  acquisition_failure_publishes_nothing (VideoStream.init "0" none 0) rfl rfl

/-- C8 counterexample: the code's sentinel is the exact string "None"
(`__init__`, line 31); a session started with the lowercase algorithm name
"none" keeps `model_name = "none"` and its first successful cycle publishes
the annotated variant produced by the model named "none", not the raw
frame — the claim's scenario fails as stated. -/
theorem lowercase_sentinel_cex :
    (threadStep (VideoStream.init "rtsp://a" (some "none") (1/2)) (some 7)).frame
      = some (ProcFrame.annotated "none" (1/2) 7)
  ∧ (threadStep (VideoStream.init "rtsp://a" (some "none") (1/2)) (some 7)).frame
      ≠ some (ProcFrame.raw 7) := by
  refine ⟨rfl, fun h => ?_⟩
  rw [show (threadStep (VideoStream.init "rtsp://a" (some "none") (1/2)) (some 7)).frame
        = some (ProcFrame.annotated "none" (1/2) 7) from rfl] at h
  injection h with h2
  exact ProcFrame.noConfusion h2

/-- C8 amended: in every acquisition cycle the frame is annotated with the
configured model and the current threshold when a model is configured, and
passed through raw otherwise; the sentinel that disables annotation is the
exact string "None": a session started with algorithm "None" publishes the
raw decoded frame, and after `update_params("m1", 0.5)` the next published
frame is the annotated variant at threshold 0.5. -/
theorem processing_branch_behavior (s : VideoStream) (raw : Nat)
    (hr : s.running = true) (ht : s.thread = .active) :
    ((threadStep s (some raw)).frame =
      some (match s.model_name with
            | none => ProcFrame.raw raw
            | some m => ProcFrame.annotated m s.threshold raw))
  ∧ (threadStep s (some raw)).new_frame_event = true
  ∧ (∀ url t r2,
      (threadStep (VideoStream.init url (some "None") t) (some r2)).frame
        = some (ProcFrame.raw r2))
  ∧ (∀ url t r1 r2,
      (threadStep
        ((threadStep (VideoStream.init url (some "None") t) (some r1)).update_params
          (some "m1") (some (1/2))) (some r2)).frame
        = some (ProcFrame.annotated "m1" (1/2) r2)) := by
  refine ⟨?_, ?_, ?_, ?_⟩
  · cases hm : s.model_name <;> simp [threadStep, ht, hr, hm]
  · cases hm : s.model_name <;> simp [threadStep, ht, hr, hm]
  · intro url t r2
    simp [VideoStream.init, threadStep]
  · intro url t r1 r2
    simp [VideoStream.init, threadStep, VideoStream.update_params, pyTruthy]

/-- Witness for C8 (amended) at a running session with model "m2". -/
theorem processing_branch_behavior_w :
    ((threadStep (VideoStream.init "rtsp://a" (some "m2") (1/4)) (some 3)).frame =
      some (match (VideoStream.init "rtsp://a" (some "m2") (1/4)).model_name with
            | none => ProcFrame.raw 3
            | some m =>
              ProcFrame.annotated m (VideoStream.init "rtsp://a" (some "m2") (1/4)).threshold 3))
  ∧ (threadStep (VideoStream.init "rtsp://a" (some "m2") (1/4)) (some 3)).new_frame_event
      = true
  ∧ (∀ url t r2,
      (threadStep (VideoStream.init url (some "None") t) (some r2)).frame
        = some (ProcFrame.raw r2))
  ∧ (∀ url t r1 r2,
      (threadStep
        ((threadStep (VideoStream.init url (some "None") t) (some r1)).update_params
          (some "m1") (some (1/2))) (some r2)).frame
        = some (ProcFrame.annotated "m1" (1/2) r2)) :=
  processing_branch_behavior (VideoStream.init "rtsp://a" (some "m2") (1/4)) 3 rfl rfl

/-- C6 counterexample: `update_params` guards the model field with Python
truthiness (`if model_name:` at line 93), so a *provided* empty-string
algorithm is silently ignored — the state is fully unchanged — while the
claim's reading (every provided field is applied) would set it. -/
theorem update_params_empty_string_cex :
    (VideoStream.init "u" (some "m1") (3/10)).update_params (some "") none
      = VideoStream.init "u" (some "m1") (3/10)
  ∧ (VideoStream.init "u" (some "m1") (3/10)).update_params (some "") none
      ≠ update_params_claim (VideoStream.init "u" (some "m1") (3/10)) (some "") none := by
  refine ⟨rfl, fun h => ?_⟩
  have h2 := congrArg VideoStream.model_name h
  rw [show ((VideoStream.init "u" (some "m1") (3/10)).update_params
        (some "") none).model_name = some "m1" from rfl,
      show (update_params_claim (VideoStream.init "u" (some "m1") (3/10))
        (some "") none).model_name = some "" from rfl] at h2
  exact absurd h2 (by decide)

/-- C6 amended: `update_params` applies exactly the provided fields, except
that a provided *empty* algorithm string is treated like an absent argument
(Python truthiness); "None" clears the model; an absent threshold is left
unchanged.  Moreover the write happens in a single `model_lock` critical
section touching no other lock and no slow call, and the acquisition loop
never holds `model_lock` across its blocking steps (`cap.read()` or
inference), so the update never waits on them. -/
theorem update_params_applies_provided (s : VideoStream) (mn : Option String)
    (th : Option ℚ) :
    s.update_params mn th = update_params_amended s mn th
  ∧ (∀ success hasModel : Bool,
      noSlowUnderModelLock (cycleTrace success hasModel) false = true)
  ∧ touchesOnlyModelLock (update_params_trace mn th) = true
  ∧ oneCriticalSection (update_params_trace mn th) = true := by
  refine ⟨?_, ?_, ?_, ?_⟩
  · unfold VideoStream.update_params update_params_amended
    cases mn with
    | none => cases th <;> simp [pyTruthy]
    | some m =>
      by_cases hm : m = ""
      · subst hm; cases th <;> simp [pyTruthy]
      · by_cases hn : m = "None" <;> cases th <;> simp [pyTruthy, hm, hn]
  · intro success hasModel
    cases success <;> cases hasModel <;> decide
  · cases hp : pyTruthy mn <;> cases th <;>
      simp only [update_params_trace, hp, if_true, if_false, Option.isSome,
        Bool.false_eq_true, ite_true, ite_false] <;> decide
  · cases hp : pyTruthy mn <;> cases th <;>
      simp only [update_params_trace, hp, if_true, if_false, Option.isSome,
        Bool.false_eq_true, ite_true, ite_false] <;> decide

/-- C1: `start_stream` retires an existing session for the same user before
creating the new one.  Over the instants of the operation: the registry
binds the user to at most one session at every instant; in every instant in
which the new session object already exists, the old session's background
thread has already been joined (it is `done`); and in the final state the
user is bound to the freshly created session while the old object is
stopped (thread joined, `running = False`). -/
theorem start_stream_retires_old_first (σ : Sys) (u cam : Nat) (url : String)
    (mn : Option String) (th : ℚ) (oldSid : Nat) (oldS : VideoStream)
    (hw : SysWF σ) (hold : lookup σ.streams u = some oldSid)
    (hheap : cell σ.heap oldSid = some oldS) :
    (∀ σ' ∈ σ.start_stream_states u cam url mn th, ∀ a b,
        lookup σ'.streams u = some a → lookup σ'.streams u = some b → a = b)
  ∧ (∀ σ' ∈ σ.start_stream_states u cam url mn th, ∀ s1,
        cell σ'.heap σ.heap.length = some s1 →
        ∀ os, cell σ'.heap oldSid = some os → os.thread = .done)
  ∧ lookup (σ.start_stream u cam url mn th).streams u = some σ.heap.length
  ∧ cell (σ.start_stream u cam url mn th).heap σ.heap.length
      = some (VideoStream.init url mn th)
  ∧ cell (σ.start_stream u cam url mn th).heap oldSid = some oldS.stop
  ∧ oldS.stop.thread = .done ∧ oldS.stop.running = false := by
  have hlt : oldSid < σ.heap.length := (hw _ (lookup_some_mem hold)).1
  have hne : σ.heap.length ≠ oldSid := Nat.ne_of_gt hlt
  have hstop : σ.stopPhase u
      = { σ with heap := modHeap σ.heap oldSid VideoStream.stop } := by
    simp [Sys.stopPhase, hold]
  have hfin : σ.start_stream u cam url mn th =
      { σ with
          heap := modHeap σ.heap oldSid VideoStream.stop ++ [VideoStream.init url mn th]
          streams := insertD σ.streams u σ.heap.length
          user_to_camera := insertD σ.user_to_camera u cam } := by
    rw [Sys.start_stream, hstop]
    simp [Sys.bindPhase, Sys.createPhase, modHeap_length]
  refine ⟨?_, ?_, ?_, ?_, ?_, (stop_fields oldS).2.1,
    (stop_fields oldS).1⟩
  · intro σ' _ a b h1 h2
    rw [h1] at h2
    exact Option.some.inj h2
  · intro σ' hmem s1 hs1 os hos
    simp only [Sys.start_stream_states, List.mem_cons, List.mem_singleton,
      List.not_mem_nil, or_false] at hmem
    rcases hmem with rfl | rfl | rfl | rfl
    · rw [cell_length_none] at hs1
      exact absurd hs1 (by simp)
    · rw [hstop] at hs1
      rw [show ({ σ with heap := modHeap σ.heap oldSid VideoStream.stop } : Sys).heap
            = modHeap σ.heap oldSid VideoStream.stop from rfl,
          cell_modHeap_ne _ _ _ _ hne, cell_length_none] at hs1
      exact absurd hs1 (by simp)
    · rw [hstop] at hs1
      rw [show (({ σ with heap := modHeap σ.heap oldSid VideoStream.stop } : Sys).bindPhase
              u cam).heap = modHeap σ.heap oldSid VideoStream.stop from rfl,
          cell_modHeap_ne _ _ _ _ hne, cell_length_none] at hs1
      exact absurd hs1 (by simp)
    · rw [hfin] at hos
      rw [show ({ σ with
              heap := modHeap σ.heap oldSid VideoStream.stop ++ [VideoStream.init url mn th]
              streams := insertD σ.streams u σ.heap.length
              user_to_camera := insertD σ.user_to_camera u cam } : Sys).heap
            = modHeap σ.heap oldSid VideoStream.stop ++ [VideoStream.init url mn th]
            from rfl,
          cell_append_lt _ _ _ (by rw [modHeap_length]; exact hlt),
          cell_modHeap_self, hheap] at hos
      have hos2 : oldS.stop = os := Option.some.inj hos
      rw [← hos2]
      exact (stop_fields oldS).2.1
  · rw [hfin]
    exact lookup_insertD_self σ.streams u σ.heap.length
  · rw [hfin]
    rw [show ({ σ with
            heap := modHeap σ.heap oldSid VideoStream.stop ++ [VideoStream.init url mn th]
            streams := insertD σ.streams u σ.heap.length
            user_to_camera := insertD σ.user_to_camera u cam } : Sys).heap
          = modHeap σ.heap oldSid VideoStream.stop ++ [VideoStream.init url mn th]
          from rfl,
        show σ.heap.length = (modHeap σ.heap oldSid VideoStream.stop).length
          from (modHeap_length σ.heap oldSid VideoStream.stop).symm]
    exact cell_append_len _ _
  · rw [hfin]
    rw [show ({ σ with
            heap := modHeap σ.heap oldSid VideoStream.stop ++ [VideoStream.init url mn th]
            streams := insertD σ.streams u σ.heap.length
            user_to_camera := insertD σ.user_to_camera u cam } : Sys).heap
          = modHeap σ.heap oldSid VideoStream.stop ++ [VideoStream.init url mn th]
          from rfl,
        cell_append_lt _ _ _ (by rw [modHeap_length]; exact hlt),
        cell_modHeap_self, hheap]
    rfl

/-- Witness for C1: user 1's running demo session (heap cell 0, camera 10)
is replaced by a new session on camera 11. -/
theorem start_stream_retires_old_first_w :
    (∀ σ' ∈ demoSys.start_stream_states 1 11 "rtsp://b" none (1/2), ∀ a b,
        lookup σ'.streams 1 = some a → lookup σ'.streams 1 = some b → a = b)
  ∧ (∀ σ' ∈ demoSys.start_stream_states 1 11 "rtsp://b" none (1/2), ∀ s1,
        cell σ'.heap demoSys.heap.length = some s1 →
        ∀ os, cell σ'.heap 0 = some os → os.thread = .done)
  ∧ lookup (demoSys.start_stream 1 11 "rtsp://b" none (1/2)).streams 1
      = some demoSys.heap.length
  ∧ cell (demoSys.start_stream 1 11 "rtsp://b" none (1/2)).heap demoSys.heap.length
      = some (VideoStream.init "rtsp://b" none (1/2))
  ∧ cell (demoSys.start_stream 1 11 "rtsp://b" none (1/2)).heap 0
      = some (VideoStream.init "rtsp://a" none (1/2)).stop
  ∧ (VideoStream.init "rtsp://a" none (1/2)).stop.thread = .done
  ∧ (VideoStream.init "rtsp://a" none (1/2)).stop.running = false :=
  start_stream_retires_old_first demoSys 1 11 "rtsp://b" none (1/2) 0
    (VideoStream.init "rtsp://a" none (1/2)) (by decide) rfl rfl

/-- C5: `update_url` never raises and is a *silent* no-op — the registry and
every session are left exactly as they were — unless the user has a live
session and `user_to_camera[user]` equals the given camera id; when both
conditions hold it delegates to `VideoStream.update_url` on the user's
session, which swaps the capture source to the new url.  The final two
conjuncts are the claim's scenario on the demo registry (session for user 1
on camera 10): an update quoting camera 99 is ignored, one quoting camera 10
swaps the source. -/
theorem update_url_stale_guard (σ : Sys) (u cam : Nat) (url : String)
    (hw : SysWF σ) :
    (∃ σ', σ.update_url u cam url = .ok σ')
  ∧ (lookup σ.streams u = none → σ.update_url u cam url = .ok σ)
  ∧ (lookup σ.user_to_camera u ≠ some cam → σ.update_url u cam url = .ok σ)
  ∧ (∀ sid s, lookup σ.streams u = some sid → lookup σ.user_to_camera u = some cam →
      cell σ.heap sid = some s →
      σ.update_url u cam url
          = .ok { σ with heap := modHeap σ.heap sid (fun x => x.update_url url) }
        ∧ cell (modHeap σ.heap sid (fun x => x.update_url url)) sid
          = some { s with cap := openCapture url, url := url })
  ∧ demoSys.update_url 1 99 "rtsp://b" = .ok demoSys
  ∧ demoSys.update_url 1 10 "rtsp://b"
      = .ok { demoSys with
                heap := modHeap demoSys.heap 0 (fun x => x.update_url "rtsp://b") } := by
  have hutc : ∀ sid, lookup σ.streams u = some sid →
      (lookup σ.user_to_camera u).isSome = true :=
    fun sid h => (hw _ (lookup_some_mem h)).2
  refine ⟨?_, ?_, ?_, ?_, rfl, rfl⟩
  · cases hs : lookup σ.streams u with
    | none => exact ⟨σ, by simp [Sys.update_url, hs]⟩
    | some sid =>
      rcases Option.isSome_iff_exists.mp (hutc sid hs) with ⟨cid, hc⟩
      by_cases hcc : cid = cam
      · subst hcc
        exact ⟨{ σ with heap := modHeap σ.heap sid (fun s => s.update_url url) },
          by simp [Sys.update_url, hs, hc]⟩
      · exact ⟨σ, by simp [Sys.update_url, hs, hc, hcc]⟩
  · intro h
    simp [Sys.update_url, h]
  · intro h
    cases hs : lookup σ.streams u with
    | none => simp [Sys.update_url, hs]
    | some sid =>
      rcases Option.isSome_iff_exists.mp (hutc sid hs) with ⟨cid, hc⟩
      have hcc : cid ≠ cam := fun he => h (he ▸ hc)
      simp [Sys.update_url, hs, hc, hcc]
  · intro sid s h1 h2 h3
    constructor
    · simp [Sys.update_url, h1, h2]
    · rw [cell_modHeap_self, h3]
      rfl

/-- Witness for C5 on the demo registry (user 1, camera 10). -/
theorem update_url_stale_guard_w :
    (∃ σ', demoSys.update_url 1 10 "rtsp://b" = .ok σ')
  ∧ (lookup demoSys.streams 1 = none → demoSys.update_url 1 10 "rtsp://b" = .ok demoSys)
  ∧ (lookup demoSys.user_to_camera 1 ≠ some 10 →
      demoSys.update_url 1 10 "rtsp://b" = .ok demoSys)
  ∧ (∀ sid s, lookup demoSys.streams 1 = some sid →
      lookup demoSys.user_to_camera 1 = some 10 →
      cell demoSys.heap sid = some s →
      demoSys.update_url 1 10 "rtsp://b"
          = .ok { demoSys with
                    heap := modHeap demoSys.heap sid (fun x => x.update_url "rtsp://b") }
        ∧ cell (modHeap demoSys.heap sid (fun x => x.update_url "rtsp://b")) sid
          = some { s with cap := openCapture "rtsp://b", url := "rtsp://b" })
  ∧ demoSys.update_url 1 99 "rtsp://b" = .ok demoSys
  ∧ demoSys.update_url 1 10 "rtsp://b"
      = .ok { demoSys with
                heap := modHeap demoSys.heap 0 (fun x => x.update_url "rtsp://b") } :=
  update_url_stale_guard demoSys 1 10 "rtsp://b" (by decide)

/-- C10: `stop_stream` on a user with a live session deletes the user's
entry from `streams` (and stops the session object), but leaves
`user_to_camera` entirely unchanged; the stale binding is unobservable
through `update_url`, which afterwards is a no-op because its live-session
check fails before the binding is consulted. -/
theorem stop_stream_keeps_camera_binding (σ : Sys) (u sid : Nat)
    (h : lookup σ.streams u = some sid) :
    lookup (σ.stop_stream u).streams u = none
  ∧ (σ.stop_stream u).user_to_camera = σ.user_to_camera
  ∧ (∀ cam url, (σ.stop_stream u).update_url u cam url = .ok (σ.stop_stream u))
  ∧ cell (σ.stop_stream u).heap sid = (cell σ.heap sid).map VideoStream.stop := by
  have hss : σ.stop_stream u
      = { σ with heap := modHeap σ.heap sid VideoStream.stop
                 streams := removeD σ.streams u } := by
    simp [Sys.stop_stream, h]
  refine ⟨?_, ?_, ?_, ?_⟩
  · rw [hss]
    exact lookup_removeD_self σ.streams u
  · rw [hss]
  · intro cam url
    rw [hss]
    simp [Sys.update_url, lookup_removeD_self]
  · rw [hss]
    exact cell_modHeap_self σ.heap sid VideoStream.stop

/-- Witness for C10 on the demo registry. -/
theorem stop_stream_keeps_camera_binding_w :
    lookup (demoSys.stop_stream 1).streams 1 = none
  ∧ (demoSys.stop_stream 1).user_to_camera = demoSys.user_to_camera
  ∧ (∀ cam url, (demoSys.stop_stream 1).update_url 1 cam url = .ok (demoSys.stop_stream 1))
  ∧ cell (demoSys.stop_stream 1).heap 0 = (cell demoSys.heap 0).map VideoStream.stop :=
  stop_stream_keeps_camera_binding demoSys 1 0 rfl

/-- C2 counterexample: the membership check of `get_frames` does *not*
happen when `get_frames(viewer)` is invoked.  Concretely: viewer 2 has no
session when the generator is created, a session is started afterwards, and
the generator's first `next()` then yields a frame — so "fails with
NoActiveSession ... without yielding any frame" is false of the call-time
state. -/
theorem get_frames_checks_at_first_iteration_cex :
    lookup Sys.empty.streams 2 = none
  ∧ ((Sys.empty.get_frames 2).next
        ((Sys.empty.start_stream 2 7 "cam" none 0).sessionCycle 0 (some 42))).1
      = NextRes.frame (ProcFrame.raw 42) :=
  ⟨rfl, rfl⟩

/-- C2 amended: the no-session check runs once, at the *first iteration* of
the generator returned by `get_frames` (the body of a Python generator
executes nothing at call time).  When the viewer has no session at that
moment, the first `next()` ends the sequence immediately — no frame, no
blocking, registry untouched — and the generator stays terminated. -/
theorem get_frames_no_session_ends (σ : Sys) (u : Nat)
    (h : lookup σ.streams u = none) :
    (σ.get_frames u).next σ = (NextRes.stopIter, ⟨u, none, true⟩, σ)
  ∧ (∀ τ, (FrameGen.mk u none true).next τ = (NextRes.stopIter, ⟨u, none, true⟩, τ)) := by
  constructor
  · simp [Sys.get_frames, FrameGen.next, h]
  · intro τ
    simp [FrameGen.next]

/-- Witness for C2 (amended) at the empty registry. -/
theorem get_frames_no_session_ends_w :
    lookup Sys.empty.streams 5 = none
  ∧ ((Sys.empty.get_frames 5).next Sys.empty
        = (NextRes.stopIter, ⟨5, none, true⟩, Sys.empty)
     ∧ (∀ τ, (FrameGen.mk 5 none true).next τ
        = (NextRes.stopIter, ⟨5, none, true⟩, τ))) :=
  ⟨rfl, get_frames_no_session_ends Sys.empty 5 rfl⟩

/-- C9: a `get_frames` generator creates without reading any registry state;
its first `next()` binds the session looked up *at that moment*; once bound,
`next()` consults only the bound heap cell — its outcome is unchanged under
arbitrary changes to the session map, the camera map and every other heap
cell.  The final group runs the claim's scenario: after user 1's generator
bound cell 0 and yielded frame 5, a second `start_stream` rebinds user 1 to
the new cell 1 which publishes frame 99 — the old generator still reads the
(now stopped) cell 0 and blocks; it is not redirected to the new session. -/
theorem frames_generator_binds_once (g : FrameGen) (sid : Nat) (σ σ' : Sys)
    (hb : g.bound = some sid) (hh : cell σ.heap sid = cell σ'.heap sid) :
    (∀ τ τ' : Sys, ∀ u, τ.get_frames u = τ'.get_frames u)
  ∧ (∀ τ : Sys, ∀ u s0, lookup τ.streams u = some s0 →
      (((τ.get_frames u).next τ).2.1).bound = some s0)
  ∧ ((g.next σ).1 = (g.next σ').1 ∧ (g.next σ).2.1 = (g.next σ').2.1)
  ∧ (demoFirst.1 = NextRes.frame (ProcFrame.raw 5)
     ∧ demoFirst.2.1.bound = some 0
     ∧ lookup demoRestart.streams 1 = some 1
     ∧ (demoFirst.2.1.next demoRestart).1 = NextRes.blocked
     ∧ (demoFirst.2.1.next demoRestart).1 ≠ NextRes.frame (ProcFrame.raw 99)) := by
  refine ⟨fun τ τ' u => rfl, ?_, ?_, rfl, rfl, rfl, rfl, ?_⟩
  · intro τ u s0 hl
    simp only [Sys.get_frames, FrameGen.next, Bool.false_eq_true, if_false, hl]
    rcases hc : cell τ.heap s0 with _ | s <;> simp [readStep, hc]
    rcases hg : s.get_frame with _ | fs <;> simp [hg]
  · by_cases hc : g.closed = true
    · simp [FrameGen.next, hc]
    · simp only [FrameGen.next, hc, hb, Bool.false_eq_true, if_false]
      unfold readStep
      rw [← hh]
      rcases hcell : cell σ.heap sid with _ | s <;> simp [hcell]
      rcases hg : s.get_frame with _ | fs <;> simp [hg]
  · intro h
    rw [show (demoFirst.2.1.next demoRestart).1 = NextRes.blocked from rfl] at h
    exact NextRes.noConfusion h

/-- Witness for C9: the bound demo generator against the demo registry and
against the same heap with both registry maps wiped. -/
theorem frames_generator_binds_once_w :
    (∀ τ τ' : Sys, ∀ u, τ.get_frames u = τ'.get_frames u)
  ∧ (∀ τ : Sys, ∀ u s0, lookup τ.streams u = some s0 →
      (((τ.get_frames u).next τ).2.1).bound = some s0)
  ∧ (((FrameGen.mk 1 (some 0) false).next demoSys).1
        = ((FrameGen.mk 1 (some 0) false).next
            { demoSys with streams := [], user_to_camera := [] }).1
    ∧ ((FrameGen.mk 1 (some 0) false).next demoSys).2.1
        = ((FrameGen.mk 1 (some 0) false).next
            { demoSys with streams := [], user_to_camera := [] }).2.1)
  ∧ (demoFirst.1 = NextRes.frame (ProcFrame.raw 5)
     ∧ demoFirst.2.1.bound = some 0
     ∧ lookup demoRestart.streams 1 = some 1
     ∧ (demoFirst.2.1.next demoRestart).1 = NextRes.blocked
     ∧ (demoFirst.2.1.next demoRestart).1 ≠ NextRes.frame (ProcFrame.raw 99)) :=
  frames_generator_binds_once (FrameGen.mk 1 (some 0) false) 0 demoSys
    { demoSys with streams := [], user_to_camera := [] } rfl rfl

end CameraYolo
